import Mathlib

/-!
Shallow embedding of the capture-session supervisor in `main.py` of
P_XpathManagement: the module-level session globals, the two cleanup
sweeps (`api_stop_capture` and `cleanup_selenium_processes`), the launch
endpoint (`api_capture_xpath`), the stop endpoint, the status and
current-url endpoints, and the SIGINT/SIGTERM handler (`signal_handler`).

Python strings are modelled as Lean `String`; `str.lower()` and the
`sub in s` substring test operate on the underlying character lists.
Timestamps (`time.time()`) are modelled as `Nat`; the only operations the
code performs on them are ordering comparisons and Python truthiness
(`0.0` and `None` are falsy).
-/

namespace XPM

/-- Character-list substring test: `charsContain sub l` is true iff `sub`
occurs as a contiguous sublist of `l`, modelling Python `sub in s`. -/
def charsContain (sub : List Char) : List Char → Bool
  | [] => sub.isEmpty
  | c :: cs => sub.isPrefixOf (c :: cs) || charsContain sub cs

/-- Python `s.lower()`, as the lowercased character list of `s`. -/
def strLower (s : String) : List Char := s.toList.map Char.toLower

/-- Python `sub in s` where `s` is an already-lowercased character list. -/
def containsSub (sub : String) (s : List Char) : Bool :=
  charsContain sub.toList s

/-- The attributes of one live OS process that the sweeps read through
psutil: pid, name, creation time, joined command line, liveness. -/
structure ProcInfo where
  pid : Nat
  name : String
  createTime : Nat
  cmdline : String
  isRunning : Bool
deriving Repr, DecidableEq

/-- The tracked subprocess handle (`subprocess.Popen` object). `stdoutIsPipe`
records whether `handle.stdout` is a readable pipe: it is `false` when the
child's stdout was redirected to a log file, in which case Python's
`Popen.stdout` attribute is `None`. -/
structure ProcHandle where
  pid : Nat
  stdoutIsPipe : Bool
deriving Repr, DecidableEq

/-- The handle produced by the `subprocess.Popen(...)` call in
`api_capture_xpath`: stdout and stderr are redirected to log files, so the
handle's stdout stream is not a pipe. -/
def popenRedirected (pid : Nat) : ProcHandle := ⟨pid, false⟩

/-- The module-level globals of `main.py` that the supervisor reads and
writes. `capture_driver_bound` records whether the global name
`capture_driver` is bound at all: `main.py` declares it `global` in
`api_capture_status` but no statement anywhere assigns it, so reading it
raises `NameError`. -/
structure SupState where
  capture_process : Option ProcHandle
  capture_active : Bool
  selenium_start_time : Option Nat
  selenium_browser_pids : List Nat
  ui_browser_pid : Option Nat
  ui_browser_start_time : Option Nat
  capture_driver_bound : Bool
deriving Repr, DecidableEq

/-- Module initialisation: all session globals idle, the owned-pid set
empty, and `capture_driver` unbound. -/
def initialState : SupState :=
  { capture_process := none
    capture_active := false
    selenium_start_time := none
    selenium_browser_pids := []
    ui_browser_pid := none
    ui_browser_start_time := none
    capture_driver_bound := false }

/-! ### The stop-path sweep (`api_stop_capture`, lines 296-312) -/

/-- Driver-binary substrings tested by the stop-path sweep. -/
def stop_drivers : List String := ["chromedriver", "msedgedriver", "geckodriver"]

/-- Browser-binary substrings tested by the stop-path sweep. -/
def stop_browsers : List String := ["chrome", "msedge", "firefox"]

/-- The per-process kill decision of the stop-path sweep. Mirrors:
`if selenium_start_time and proc.create_time() > selenium_start_time:`
(Python truthiness: `None` and `0.0` are falsy), then the driver-name
check, then `elif` the browser-name check guarded by command-line
evidence (`selenium` or `--remote-debugging-port`). -/
def stopKillDecision (startTime : Option Nat) (p : ProcInfo) : Bool :=
  match startTime with
  | none => false
  | some t =>
    if t != 0 && decide (p.createTime > t) then
      let pname := strLower p.name
      if stop_drivers.any (fun d => containsSub d pname) then true
      else if stop_browsers.any (fun b => containsSub b pname) then
        let c := strLower p.cmdline
        containsSub "selenium" c || containsSub "--remote-debugging-port" c
      else false
    else false

/-- The processes the stop-path sweep selects as victims (kills). -/
def stopSweepSelected (st : SupState) (procs : List ProcInfo) : List ProcInfo :=
  procs.filter (stopKillDecision st.selenium_start_time)

/-- The pids killed by the stop-path sweep. -/
def stopSweepVictims (st : SupState) (procs : List ProcInfo) : List Nat :=
  (stopSweepSelected st procs).map (·.pid)

/-! ### The signal-path sweep (`cleanup_selenium_processes`, lines 143-165) -/

/-- Look a pid up among the live processes; `none` models
`psutil.NoSuchProcess` (caught and skipped). -/
def findProc (procs : List ProcInfo) (pid : Nat) : Option ProcInfo :=
  procs.find? (fun p => p.pid == pid)

/-- The per-pid kill decision of the first phase of
`cleanup_selenium_processes`: the process must exist, be running, and its
pid must differ from `ui_browser_pid` (comparing an int with Python `None`
is always unequal). -/
def pidPhaseKill (uiPid : Option Nat) (procs : List ProcInfo) (pid : Nat) : Bool :=
  match findProc procs pid with
  | none => false
  | some p =>
    p.isRunning &&
      (match uiPid with
       | none => true
       | some u => pid != u)

/-- The pids killed by the first (owned-pid-set) phase of the signal-path
sweep: the elements of `selenium_browser_pids` passing `pidPhaseKill`. -/
def pidPhaseVictims (st : SupState) (procs : List ProcInfo) : List Nat :=
  st.selenium_browser_pids.filter (pidPhaseKill st.ui_browser_pid procs)

/-- The per-process kill decision of the second (driver) phase of
`cleanup_selenium_processes`: `any(driver in pname for driver in
['msedgedriver'])` on the lowercased name — no creation-time test and no
`ui_browser_pid` test. -/
def cleanupDriverDecision (p : ProcInfo) : Bool :=
  ["msedgedriver"].any (fun d => containsSub d (strLower p.name))

/-- The pids killed by the driver phase of the signal-path sweep. -/
def driverPhaseVictims (procs : List ProcInfo) : List Nat :=
  (procs.filter cleanupDriverDecision).map (·.pid)

/-- The pids killed by `cleanup_selenium_processes`: owned-pid phase then
driver phase. Per-process psutil errors are caught and skipped. -/
def cleanup_selenium_processes (st : SupState) (procs : List ProcInfo) : List Nat :=
  pidPhaseVictims st procs ++ driverPhaseVictims procs

/-! ### The launch endpoint (`api_capture_xpath`, lines 186-279) -/

/-- Where (if anywhere) the body of `api_capture_xpath` raises. The first
three points precede `selenium_start_time = time.time()` and the opening
of the log sinks; `spawnFailed` means `subprocess.Popen` itself raised
(sinks already open, start time already set); `afterSpawn` means an
exception after `Popen` succeeded and `capture_active = True` was set
(e.g. in the logging call). -/
inductive FailPoint where
  | noPythonExec
  | scriptMissing
  | driverMissing
  | spawnFailed
  | afterSpawn
  | noFailure
deriving Repr, DecidableEq

/-- Environment of one launch attempt: the failure point, the clock value
`time.time()` would return, the pid `Popen` would assign, and whether the
`capture_process.terminate()` call in the except-handler itself raises. -/
structure LaunchInput where
  failPoint : FailPoint
  now : Nat
  newPid : Nat
  terminateRaises : Bool
deriving Repr, DecidableEq

/-- The observable result of a launch attempt. `failed` is the structured
`{'success': False, 'error': ...}` response; `raised` means an exception
escaped the except-handler (the request fails unstructured).
`sinksLeftOpen` records whether log sinks opened by this attempt remain
open when the handler is left (on `started` they stay open deliberately,
inherited by the child). -/
inductive LaunchOutcome where
  | alreadyActive
  | started (pid : Nat)
  | failed (sinksLeftOpen : Bool)
  | raised (sinksLeftOpen : Bool)
deriving Repr, DecidableEq

/-- The except-handler of `api_capture_xpath` (lines 267-279): if the
global `capture_process` is truthy it calls `terminate()` with no inner
try, so a raise there escapes with nothing reset and no sink closed;
otherwise the three session globals are reset and any opened sinks are
closed. -/
def launchExcept (st : SupState) (sinksOpened terminateRaises : Bool) :
    SupState × LaunchOutcome :=
  if st.capture_process.isSome && terminateRaises then
    (st, .raised sinksOpened)
  else
    ({ st with capture_process := none, capture_active := false,
               selenium_start_time := none }, .failed false)

/-- The launch endpoint `api_capture_xpath`: reject if `capture_active`,
else run the body up to the failure point and on failure enter the
except-handler. On `noFailure` the new handle (stdout redirected to a log
file) is stored, `capture_active` set, and the pid returned. -/
def api_capture_xpath (st : SupState) (inp : LaunchInput) :
    SupState × LaunchOutcome :=
  if st.capture_active then (st, .alreadyActive)
  else
    match inp.failPoint with
    | .noPythonExec => launchExcept st false inp.terminateRaises
    | .scriptMissing => launchExcept st false inp.terminateRaises
    | .driverMissing => launchExcept st false inp.terminateRaises
    | .spawnFailed =>
        launchExcept { st with selenium_start_time := some inp.now } true
          inp.terminateRaises
    | .afterSpawn =>
        launchExcept
          { st with selenium_start_time := some inp.now,
                    capture_process := some (popenRedirected inp.newPid),
                    capture_active := true } true inp.terminateRaises
    | .noFailure =>
        ({ st with selenium_start_time := some inp.now,
                   capture_process := some (popenRedirected inp.newPid),
                   capture_active := true },
         .started inp.newPid)

/-! ### The stop endpoint (`api_stop_capture`, lines 282-337) -/

/-- Environment of one stop call: the live process table, whether
`capture_process.poll()` returns `None` (still running), and whether
`wait(timeout=5)` returns before the timeout. -/
structure StopInput where
  procs : List ProcInfo
  pollRunning : Bool
  exitsWithinTimeout : Bool
deriving Repr, DecidableEq

/-- The observable result of a stop call: the no-active-session rejection,
or success carrying the killed pids and whether the graceful wait timed
out and `kill()` was issued. -/
inductive StopOutcome where
  | noActive
  | stopped (killed : List Nat) (forcedKill : Bool)
deriving Repr, DecidableEq

/-- The stop endpoint `api_stop_capture`: reject when idle; otherwise run
the stop-path sweep, then terminate the tracked subprocess (escalating to
`kill()` when `wait(timeout=5)` raises `TimeoutExpired`), then reset the
three session globals and report success. -/
def api_stop_capture (st : SupState) (inp : StopInput) :
    SupState × StopOutcome :=
  if !st.capture_active then (st, .noActive)
  else
    let killed := stopSweepVictims st inp.procs
    let forced := st.capture_process.isSome && inp.pollRunning &&
      !inp.exitsWithinTimeout
    ({ st with capture_process := none, capture_active := false,
               selenium_start_time := none },
     .stopped killed forced)

/-! ### The status endpoint (`api_capture_status`, lines 465-483) -/

/-- Environment of one status call: the truthiness `capture_driver` would
have if it were bound, and the result of the `current_url` probe (`none`
models the probe raising, caught by the bare `except: pass`). -/
structure StatusInput where
  driverTruthy : Bool
  probe : Option String
deriving Repr, DecidableEq

/-- The observable result of a status call. `requestFailed` models an
exception escaping the endpoint (the framework turns it into a failed
request). -/
inductive StatusOutcome where
  | ok (active : Bool) (currentUrl : Option String)
  | requestFailed
deriving Repr, DecidableEq

/-- The status endpoint `api_capture_status`: when idle, answer
`{'active': False}`. When active, the body evaluates `if capture_driver:`
— reading the global `capture_driver`, which no statement in the module
binds, raises `NameError` outside any try, failing the request. Were it
bound, the probe's failure would be swallowed and `currentUrl` left null. -/
def api_capture_status (st : SupState) (inp : StatusInput) : StatusOutcome :=
  if !st.capture_active then .ok false none
  else if !st.capture_driver_bound then .requestFailed
  else if inp.driverTruthy then
    match inp.probe with
    | some u => .ok true (some u)
    | none => .ok true none
  else .ok true none

/-! ### The current-url endpoint (`get_current_url`, lines 444-463) -/

/-- The observable result of `get_current_url`: a url, or the structured
`{'success': False, 'error': ...}` response. -/
inductive UrlOutcome where
  | ok (url : String)
  | err
deriving Repr, DecidableEq

/-- The current-url endpoint: reject when idle or no handle. Otherwise
`capture_process.stdout.readline().strip()` — when stdout was redirected
to a file `Popen.stdout` is `None`, so the attribute access raises and the
except-handler returns the structured failure. `line` is what a readline
on a real pipe would produce. -/
def get_current_url (st : SupState) (line : String) : UrlOutcome :=
  if !st.capture_active || st.capture_process.isNone then .err
  else
    match st.capture_process with
    | some h => if h.stdoutIsPipe then .ok line.trim else .err
    | none => .err

/-! ### The signal handler (`signal_handler`, lines 167-183) -/

/-- Environment of one signal delivery: the live process table, whether
the process enumeration machinery inside the sweep raises (caught by the
sweep's outer except), whether `poll()` reports the tracked subprocess
still running, whether `terminate()` raises (caught by the handler), and
whether the graceful wait finishes within the 5-second timeout. -/
structure SignalInput where
  procs : List ProcInfo
  cleanupIterRaises : Bool
  pollRunning : Bool
  terminateRaises : Bool
  exitsWithinTimeout : Bool
deriving Repr, DecidableEq

/-- The observable result of the signal handler: the exit status passed to
`os._exit`, the pids the sweep killed, and whether `kill()` was issued. -/
structure SignalOutcome where
  exitCode : Nat
  cleanedPids : List Nat
  forcedKill : Bool
deriving Repr, DecidableEq

/-- The handler for SIGINT/SIGTERM: run the signal-path sweep inside a
try/except (a raise is logged and swallowed), then terminate the tracked
subprocess inside a try/except (a raise from `terminate()` is logged and
swallowed, skipping the wait and kill; a `TimeoutExpired` from the wait
escalates to `kill()`), then `os._exit(0)` unconditionally. -/
def signal_handler (st : SupState) (inp : SignalInput) : SignalOutcome :=
  let cleaned :=
    if inp.cleanupIterRaises then []
    else cleanup_selenium_processes st inp.procs
  let forced :=
    if st.capture_process.isSome && inp.pollRunning then
      if inp.terminateRaises then false
      else !inp.exitsWithinTimeout
    else false
  { exitCode := 0, cleanedPids := cleaned, forcedKill := forced }

/-! ### `open_browser` and the reachable states of the module -/

/-- `open_browser` (lines 378-387): declares `ui_browser_pid` global but
assigns only `ui_browser_start_time`; the `webbrowser` call records no
pid. -/
def open_browser (st : SupState) (t : Nat) : SupState :=
  { st with ui_browser_start_time := some t }

/-- One state transition of the module's globals: the only code paths that
assign to them are the launch endpoint, the stop endpoint and
`open_browser` (the signal handler exits the process and the remaining
endpoints only read). -/
inductive Step : SupState → SupState → Prop where
  | launch (st : SupState) (inp : LaunchInput) :
      Step st (api_capture_xpath st inp).1
  | stop (st : SupState) (inp : StopInput) :
      Step st (api_stop_capture st inp).1
  | browser (st : SupState) (t : Nat) :
      Step st (open_browser st t)

/-- The states the module's globals can reach from initialisation. -/
inductive Reachable : SupState → Prop where
  | init : Reachable initialState
  | step {s s' : SupState} : Reachable s → Step s s' → Reachable s'

/-- The reachability invariant: `capture_driver` is never bound, the
owned-pid set stays empty, and every tracked handle has its stdout
redirected away from a pipe. -/
def Inv (st : SupState) : Prop :=
  st.capture_driver_bound = false ∧
  st.selenium_browser_pids = [] ∧
  ∀ h, st.capture_process = some h → h.stdoutIsPipe = false

/-! ### Concrete instances used by counterexamples and witnesses -/

/-- A state with an active session started at time 10 whose protected UI
browser pid is 42. -/
def stProt : SupState :=
  { capture_process := none
    capture_active := true
    selenium_start_time := some 10
    selenium_browser_pids := []
    ui_browser_pid := some 42
    ui_browser_start_time := some 3
    capture_driver_bound := false }

/-- A browser process carrying the protected pid 42, created after the
session start, with automation evidence on its command line. -/
def pBrowser : ProcInfo :=
  { pid := 42, name := "msedge.exe", createTime := 11,
    cmdline := "msedge.exe --remote-debugging-port=9222", isRunning := true }

/-- A driver process carrying the protected pid 42. -/
def pDrvProt : ProcInfo :=
  { pid := 42, name := "msedgedriver.exe", createTime := 2,
    cmdline := "", isRunning := true }

/-- A driver process created at time 5, before the session start 10. -/
def pOldDriver : ProcInfo :=
  { pid := 99, name := "msedgedriver.exe", createTime := 5,
    cmdline := "", isRunning := true }

/-- A driver process created at time 20, after the session start 10. -/
def pNewDriver : ProcInfo :=
  { pid := 77, name := "msedgedriver.exe", createTime := 20,
    cmdline := "", isRunning := true }

/-- A state whose owned-pid set contains the protected pid 7. -/
def stPidW : SupState :=
  { capture_process := none
    capture_active := false
    selenium_start_time := none
    selenium_browser_pids := [7]
    ui_browser_pid := some 7
    ui_browser_start_time := none
    capture_driver_bound := false }

/-- A running process with the protected pid 7. -/
def pUiW : ProcInfo :=
  { pid := 7, name := "msedge.exe", createTime := 1, cmdline := "",
    isRunning := true }

/-- A fully successful launch environment: clock 10, new pid 7. -/
def inpOK : LaunchInput := ⟨.noFailure, 10, 7, false⟩

/-- The state after one successful launch from initialisation. -/
def stActive : SupState := (api_capture_xpath initialState inpOK).1

/-- A launch environment that raises after the spawn succeeded and whose
except-handler `terminate()` call raises as well. -/
def inpBad : LaunchInput := ⟨.afterSpawn, 10, 7, true⟩

/-! ## Invariant lemmas -/

theorem inv_initial : Inv initialState :=
  ⟨rfl, rfl, fun _ hh => by simp [initialState] at hh⟩

theorem inv_launchExcept (st : SupState) (so tr : Bool) (hi : Inv st) :
    Inv (launchExcept st so tr).1 := by
  obtain ⟨h1, h2, h3⟩ := hi
  unfold launchExcept
  split
  · exact ⟨h1, h2, h3⟩
  · exact ⟨h1, h2, fun h hh => by simp at hh⟩

theorem inv_launch (st : SupState) (inp : LaunchInput) (hi : Inv st) :
    Inv (api_capture_xpath st inp).1 := by
  obtain ⟨h1, h2, h3⟩ := hi
  unfold api_capture_xpath
  split
  · exact ⟨h1, h2, h3⟩
  · cases hf : inp.failPoint
    case noPythonExec => exact inv_launchExcept st false inp.terminateRaises ⟨h1, h2, h3⟩
    case scriptMissing => exact inv_launchExcept st false inp.terminateRaises ⟨h1, h2, h3⟩
    case driverMissing => exact inv_launchExcept st false inp.terminateRaises ⟨h1, h2, h3⟩
    case spawnFailed =>
      exact inv_launchExcept _ true inp.terminateRaises ⟨h1, h2, h3⟩
    case afterSpawn =>
      refine inv_launchExcept _ true inp.terminateRaises ⟨h1, h2, ?_⟩
      intro h hh
      cases hh
      rfl
    case noFailure =>
      refine ⟨h1, h2, ?_⟩
      intro h hh
      cases hh
      rfl

theorem inv_stop (st : SupState) (inp : StopInput) (hi : Inv st) :
    Inv (api_stop_capture st inp).1 := by
  obtain ⟨h1, h2, h3⟩ := hi
  unfold api_stop_capture
  split
  · exact ⟨h1, h2, h3⟩
  · exact ⟨h1, h2, fun h hh => by simp at hh⟩

theorem inv_browser (st : SupState) (t : Nat) (hi : Inv st) :
    Inv (open_browser st t) := by
  obtain ⟨h1, h2, h3⟩ := hi
  exact ⟨h1, h2, h3⟩

theorem inv_reachable {st : SupState} (hr : Reachable st) : Inv st := by
  induction hr with
  | init => exact inv_initial
  | step _ hs ih =>
    cases hs with
    | launch inp => exact inv_launch _ inp ih
    | stop inp => exact inv_stop _ inp ih
    | browser t => exact inv_browser _ t ih

theorem reachable_stActive : Reachable stActive :=
  Reachable.step Reachable.init (Step.launch initialState inpOK)

/-! ## Claim theorems -/

/-- Claim C1, counterexample: with `ui_browser_pid = 42` set, the stop-path
sweep kills a browser process whose pid is 42 (name match, created after
`selenium_start_time`, automation command line), and the driver phase of
the signal-path sweep kills a driver-named process whose pid is 42:
neither name-matching phase consults `ui_browser_pid`. -/
theorem protected_pid_killed_by_sweeps :
    stProt.ui_browser_pid = some 42 ∧
    stopSweepVictims stProt [pBrowser] = [42] ∧
    cleanup_selenium_processes stProt [pDrvProt] = [42] := by
  refine ⟨rfl, ?_, ?_⟩ <;> decide

/-- Claim C1, amended: only the owned-pid phase of the signal-path sweep
excludes `ui_browser_pid`; for every state and process table, the
protected pid is never among that phase's victims. The name-matching
phases of both sweeps apply no protected-pid exclusion. -/
theorem pid_phase_spares_protected (st : SupState) (procs : List ProcInfo)
    (u : Nat) (h : st.ui_browser_pid = some u) :
    u ∉ pidPhaseVictims st procs := by
  intro hmem
  have hk := (List.mem_filter.mp hmem).2
  unfold pidPhaseKill at hk
  rw [h] at hk
  cases hf : findProc procs u <;> rw [hf] at hk <;> simp at hk

/-- Witness for `pid_phase_spares_protected` at a concrete state whose
owned-pid set contains the protected pid 7 and whose process table holds a
running process with pid 7. -/
theorem pid_phase_spares_protected_witness :
    stPidW.ui_browser_pid = some 7 ∧ 7 ∉ pidPhaseVictims stPidW [pUiW] :=
  ⟨rfl, pid_phase_spares_protected stPidW [pUiW] 7 rfl⟩

/-- Claim C2, counterexample: a `msedgedriver`-named process created at
time 5 ≤ `selenium_start_time` = 10 is killed by the signal-path sweep,
whose driver phase performs no creation-time comparison. -/
theorem signal_sweep_kills_predating_driver :
    stProt.selenium_start_time = some 10 ∧
    pOldDriver.createTime ≤ 10 ∧
    cleanup_selenium_processes stProt [pOldDriver] = [99] := by
  refine ⟨rfl, ?_, ?_⟩ <;> decide

/-- Claim C2, amended: the stop-path sweep never selects a process whose
creation time is at or before `selenium_start_time`; the signal-path
sweep's phases ignore `selenium_start_time` entirely. -/
theorem stop_sweep_spares_predating (st : SupState) (procs : List ProcInfo)
    (p : ProcInfo) (t : Nat) (hst : st.selenium_start_time = some t)
    (hle : p.createTime ≤ t) :
    p ∉ stopSweepSelected st procs := by
  intro hmem
  have h2 := (List.mem_filter.mp hmem).2
  unfold stopKillDecision at h2
  rw [hst] at h2
  have hd : decide (p.createTime > t) = false := decide_eq_false (Nat.not_lt.mpr hle)
  simp [hd] at h2

/-- Witness for `stop_sweep_spares_predating`: the predating driver
process is not selected by the stop-path sweep over `stProt`. -/
theorem stop_sweep_spares_predating_witness :
    stProt.selenium_start_time = some 10 ∧ pOldDriver.createTime ≤ 10 ∧
    pOldDriver ∉ stopSweepSelected stProt [pOldDriver] :=
  ⟨rfl, by decide,
   stop_sweep_spares_predating stProt [pOldDriver] pOldDriver 10 rfl (by decide)⟩

/-- Claim C3: in every reachable state with an active session,
`api_capture_status` fails the request — the body reads the global
`capture_driver`, which no statement in the module ever binds, raising
`NameError` outside any try. The claim's `{active: true, currentUrl:
null}` response is unreachable. -/
theorem capture_status_fails_when_active (st : SupState) (inp : StatusInput)
    (hr : Reachable st) (ha : st.capture_active = true) :
    api_capture_status st inp = .requestFailed := by
  obtain ⟨h1, -, -⟩ := inv_reachable hr
  unfold api_capture_status
  rw [ha, h1]
  simp

/-- Witness for `capture_status_fails_when_active` at the reachable state
after one successful launch. -/
theorem capture_status_fails_when_active_witness :
    stActive.capture_active = true ∧
    api_capture_status stActive ⟨true, some "http"⟩ = .requestFailed :=
  ⟨rfl, capture_status_fails_when_active stActive ⟨true, some "http"⟩
    reachable_stActive rfl⟩

/-- Claim C4, counterexample: a `msedgedriver`-named process created at
time 5 ≤ `selenium_start_time` = 10 is NOT terminated by the stop-path
sweep — its creation-time guard applies to driver names too. -/
theorem predating_driver_not_stop_victim :
    cleanupDriverDecision pOldDriver = true ∧
    pOldDriver.createTime ≤ 10 ∧
    stProt.selenium_start_time = some 10 ∧
    stopSweepVictims stProt [pOldDriver] = [] := by
  refine ⟨?_, ?_, rfl, ?_⟩ <;> decide

/-- Claim C4, amended: a process whose lowercased name contains
`msedgedriver` is always a victim of the signal-path driver phase —
regardless of creation time and with no protected-pid exclusion — while
the stop-path sweep makes it a victim only when `selenium_start_time` is
truthy and its creation time is strictly greater. -/
theorem driver_victim_eligibility (p : ProcInfo) (procs : List ProcInfo)
    (hname : containsSub "msedgedriver" (strLower p.name) = true)
    (hmem : p ∈ procs) :
    p.pid ∈ driverPhaseVictims procs ∧
    (∀ st : SupState, ∀ t : Nat, st.selenium_start_time = some t → t ≠ 0 →
      p.createTime > t → stopKillDecision st.selenium_start_time p = true) := by
  constructor
  · unfold driverPhaseVictims
    refine List.mem_map.mpr ⟨p, ?_, rfl⟩
    refine List.mem_filter.mpr ⟨hmem, ?_⟩
    unfold cleanupDriverDecision
    simp [hname]
  · intro st t hst h0 hgt
    rw [hst]
    unfold stopKillDecision
    have hany : stop_drivers.any (fun d => containsSub d (strLower p.name)) = true := by
      unfold stop_drivers
      simp only [List.any_cons, List.any_nil, Bool.or_eq_true]
      exact Or.inr (Or.inl hname)
    simp [hany, h0, hgt]

/-- Witness for `driver_victim_eligibility` at the driver process created
at time 20, after session start 10. -/
theorem driver_victim_eligibility_witness :
    pNewDriver.pid ∈ driverPhaseVictims [pNewDriver] ∧
    stopKillDecision stProt.selenium_start_time pNewDriver = true :=
  ⟨(driver_victim_eligibility pNewDriver [pNewDriver] (by decide)
      (List.mem_singleton.mpr rfl)).1,
   (driver_victim_eligibility pNewDriver [pNewDriver] (by decide)
      (List.mem_singleton.mpr rfl)).2 stProt 10 rfl (by decide) (by decide)⟩

/-- Claim C5: a launch attempt while `capture_active` is true is rejected
up front with the already-running error, and the returned state is the
input state: handle, `selenium_start_time` and pid are untouched. -/
theorem launch_rejected_when_active (st : SupState) (inp : LaunchInput)
    (h : st.capture_active = true) :
    api_capture_xpath st inp = (st, .alreadyActive) := by
  unfold api_capture_xpath
  rw [h]
  simp

/-- Witness for `launch_rejected_when_active` at the state after one
successful launch. -/
theorem launch_rejected_when_active_witness :
    api_capture_xpath stActive inpOK = (stActive, .alreadyActive) :=
  launch_rejected_when_active stActive inpOK rfl

/-- Claim C6: a stop call on an active session whose tracked subprocess is
still running and does not exit within the 5-second graceful wait issues
`kill()`, resets handle, `capture_active` and `selenium_start_time` to
idle, and still reports success. -/
theorem stop_escalates_to_kill_and_resets (st : SupState) (inp : StopInput)
    (h : ProcHandle) (ha : st.capture_active = true)
    (hp : st.capture_process = some h) (hrun : inp.pollRunning = true)
    (hto : inp.exitsWithinTimeout = false) :
    api_stop_capture st inp =
      ({ st with capture_process := none, capture_active := false,
                 selenium_start_time := none },
       .stopped (stopSweepVictims st inp.procs) true) := by
  unfold api_stop_capture
  rw [ha, hp, hrun, hto]
  simp

/-- Witness for `stop_escalates_to_kill_and_resets` at the state after one
successful launch, with the subprocess still running past the timeout. -/
theorem stop_escalates_to_kill_and_resets_witness :
    api_stop_capture stActive ⟨[], true, false⟩ =
      ({ stActive with capture_process := none, capture_active := false,
                       selenium_start_time := none },
       .stopped [] true) :=
  stop_escalates_to_kill_and_resets stActive ⟨[], true, false⟩
    (popenRedirected 7) rfl rfl rfl rfl

/-- Claim C7, counterexample: when the launch body fails after the spawn
and the except-handler's `terminate()` call itself raises, the exception
escapes (no structured spawn-error response), `selenium_start_time` is not
reset, the partially-created handle is still stored, and the opened log
sinks are left open. -/
theorem launch_terminate_raise_escapes :
    (api_capture_xpath initialState inpBad).2 = .raised true ∧
    (api_capture_xpath initialState inpBad).1.selenium_start_time = some 10 ∧
    (api_capture_xpath initialState inpBad).1.capture_process =
      some (popenRedirected 7) := by
  refine ⟨?_, ?_, ?_⟩ <;> decide

/-- Claim C7, amended: on a failed launch the except-handler's terminate
attempt is not error-protected. When no process object exists or the
terminate attempt does not raise, the handler resets
`capture_process`, `capture_active` and `selenium_start_time` to idle,
closes any opened sinks, and returns the structured spawn-error result;
when the terminate attempt raises, the exception propagates with nothing
reset and sinks unclosed. -/
theorem launch_failure_rollback (st : SupState) (inp : LaunchInput)
    (hna : st.capture_active = false) (hfp : inp.failPoint ≠ .noFailure)
    (htr : inp.terminateRaises = false) :
    api_capture_xpath st inp =
      ({ st with capture_process := none, capture_active := false,
                 selenium_start_time := none },
       .failed false) := by
  unfold api_capture_xpath
  rw [hna]
  cases hf : inp.failPoint <;>
    simp_all [launchExcept, htr]

/-- Witness for `launch_failure_rollback`: a launch from the initial state
failing on the missing driver binary, with a non-raising handler. -/
theorem launch_failure_rollback_witness :
    api_capture_xpath initialState ⟨.driverMissing, 0, 0, false⟩ =
      ({ initialState with capture_process := none, capture_active := false,
                           selenium_start_time := none },
       .failed false) :=
  launch_failure_rollback initialState ⟨.driverMissing, 0, 0, false⟩ rfl
    (by decide) rfl

/-- Claim C8: for every state and every combination of sub-step failures
(sweep machinery raising, `terminate()` raising, the graceful wait timing
out), the signal handler reaches `os._exit(0)`: the exit status is 0. -/
theorem signal_handler_exits_zero (st : SupState) (inp : SignalInput) :
    (signal_handler st inp).exitCode = 0 := rfl

/-- Claim C9: in every reachable state the owned-pid set
`selenium_browser_pids` is empty, so the per-pid phase of the signal-path
sweep kills nothing, whatever the process table. -/
theorem selenium_pid_set_always_empty (st : SupState) (procs : List ProcInfo)
    (hr : Reachable st) :
    st.selenium_browser_pids = [] ∧ pidPhaseVictims st procs = [] := by
  obtain ⟨-, h2, -⟩ := inv_reachable hr
  refine ⟨h2, ?_⟩
  unfold pidPhaseVictims
  rw [h2]
  rfl

/-- Witness for `selenium_pid_set_always_empty` at the initial state. -/
theorem selenium_pid_set_always_empty_witness :
    initialState.selenium_browser_pids = [] ∧
    pidPhaseVictims initialState [pUiW] = [] :=
  selenium_pid_set_always_empty initialState [pUiW] Reachable.init

/-- Claim C10: in every reachable state with an active session the tracked
handle was produced by the launch endpoint with stdout redirected to a log
file, so `get_current_url` returns the structured failure — it can never
return a url. -/
theorem current_url_always_fails (st : SupState) (line : String)
    (hr : Reachable st) (ha : st.capture_active = true) :
    get_current_url st line = .err := by
  obtain ⟨-, -, h3⟩ := inv_reachable hr
  unfold get_current_url
  cases hp : st.capture_process with
  | none => simp [ha, hp]
  | some h =>
    have hpipe := h3 h hp
    simp [ha, hp, hpipe]

/-- Witness for `current_url_always_fails` at the reachable state after
one successful launch. -/
theorem current_url_always_fails_witness :
    stActive.capture_active = true ∧ get_current_url stActive "x" = .err :=
  ⟨rfl, current_url_always_fails stActive "x" reachable_stActive rfl⟩

end XPM
